import Mathlib

/-!
Verification of the KPI aggregation and period-comparison engine of
`src/dashboard.py` (marketing dashboard).

The development is a shallow embedding of the Python source:

* Layer 1 (`RawDF`, `coerce_numerics`, `parse_dates`, `clean_combined_data`,
  `calculate_kpis_df`) models the raw tabular frame of `get_combined_data`
  (lines 50-68), where columns may be absent and cells may be NaN, strings
  or nulls.
* Layer 2 (`Record`, `calculate_kpis`, `calculate_summary_kpis`,
  `base_mask`, `df_main_of`, `df_wtd`/`df_mtd`/`df_ytd`,
  `generate_html_table`, `run_dashboard`) models the engine that runs on
  the cleaned record set: every numeric cell is a rational and every date
  is a valid calendar date (stored as its proleptic-Gregorian day ordinal,
  which is order-isomorphic to the calendar order used by pandas).

Python floats are modelled by `ℚ` at layer 2: the source only adds,
subtracts and divides values coming from the data, and every division in
the source is guarded by a strict positivity test on the denominator.
-/

/-- Day ordinal (days since 1970-01-01) of the proleptic Gregorian date
`y-m-d`, the calendar used by `datetime.date` / pandas timestamps.
Standard civil-from-days formula; `/` on `Int` is Euclidean division, which
for the positive divisors used here coincides with Python floor division. -/
def daysFromCivil (y m d : Int) : Int :=
  let yy := if m ≤ 2 then y - 1 else y
  let era := yy / 400
  let yoe := yy - era * 400
  let doy := (153 * (m + (if 2 < m then -3 else 9)) + 2) / 5 + d - 1
  let doe := yoe * 365 + yoe / 4 - yoe / 100 + doy
  era * 146097 + doe - 719468

/-- A calendar date, as used for `today = pd.Timestamp.now().date()`. -/
structure Date where
  year : Int
  month : Int
  day : Int
deriving DecidableEq

/-- Day ordinal of a `Date`. -/
def Date.ord (t : Date) : Int := daysFromCivil t.year t.month t.day

/-- `datetime.date.weekday()`: Monday = 0 .. Sunday = 6.
1970-01-01 (ordinal 0) was a Thursday (= 3). -/
def Date.weekday (t : Date) : Int := (t.ord + 3) % 7

/-- One row of the cleaned record set produced by `get_combined_data`:
the date is stored as its day ordinal, and the numeric measures used by
the engine are rationals (normalization coerced them, line 59). -/
structure Record where
  date : Int
  channel : String
  campaign : String
  account : String
  offerType : String
  region : String
  impressions : ℚ
  clicks : ℚ
  cost : ℚ
  channelLeads : ℚ
  gaBooking : ℚ
deriving DecidableEq

/-- Sum of a numeric column over a record subset (`dataframe[col].sum()`). -/
def sumBy (f : Record → ℚ) (rows : List Record) : ℚ := (rows.map f).sum

/-- The dict `{"cost": ..., "booking": ..., "cpb": ...}` returned by
`calculate_kpis` (dashboard.py lines 116-120). -/
structure TotalKpis where
  cost : ℚ
  booking : ℚ
  cpb : ℚ
deriving DecidableEq

/-- `calculate_kpis` (dashboard.py lines 116-120). -/
def calculate_kpis (dataframe : List Record) : TotalKpis :=
  let cost := sumBy Record.cost dataframe
  let bookings := sumBy Record.gaBooking dataframe
  ⟨cost, bookings, if 0 < bookings then cost / bookings else 0⟩

/-- The per-region summary Series built by `calculate_summary_kpis`:
the five column sums plus the four derived ratio metrics. -/
structure SummaryKpis where
  impressions : ℚ
  clicks : ℚ
  cost : ℚ
  channelLeads : ℚ
  gaBooking : ℚ
  ctr : ℚ
  cpc : ℚ
  cpb : ℚ
  cvr : ℚ
deriving DecidableEq

/-- `calculate_summary_kpis` (dashboard.py lines 122-128), applied to one
group of rows: sums the five measure columns, then derives each ratio with
a strict positivity guard on its denominator sum. -/
def calculate_summary_kpis (grouped_df : List Record) : SummaryKpis :=
  let i := sumBy Record.impressions grouped_df
  let c := sumBy Record.clicks grouped_df
  let co := sumBy Record.cost grouped_df
  let l := sumBy Record.channelLeads grouped_df
  let g := sumBy Record.gaBooking grouped_df
  ⟨i, c, co, l, g,
    if 0 < i then c / i else 0,
    if 0 < c then co / c else 0,
    if 0 < g then co / g else 0,
    if 0 < c then l / c else 0⟩

/-- The sidebar facet selection (channel, campaigns, account, offer type). -/
structure FilterSelection where
  channel : String
  campaigns : List String
  account : String
  offerType : String
deriving DecidableEq

/-- `base_mask` (dashboard.py lines 131-139): the combined inclusion
predicate.  The initial `df['date'].notna()` conjunct is `true` here since
cleaning already dropped every row without a valid date (line 63). -/
def base_mask (sel : FilterSelection) (r : Record) : Bool :=
  let m := true
  let m := if sel.channel ≠ "All" then m && (r.channel == sel.channel) else m
  let m := if sel.campaigns ≠ [] then m && (sel.campaigns.contains r.campaign) else m
  let m := if sel.account ≠ "All" then m && (r.account == sel.account) else m
  if sel.offerType ≠ "All" then m && (r.offerType == sel.offerType) else m

/-- `sorted(...)` on a list of strings (Python lexicographic sort,
modelled by a stable sort for the lexicographic order on `String`). -/
def sortStrings (l : List String) : List String :=
  l.insertionSort (· ≤ ·)

/-- `campaign_options` (dashboard.py lines 88-91): sorted distinct
campaign names, restricted to the selected channel unless it is "All". -/
def campaign_options (df : List Record) (channel : String) : List String :=
  if channel == "All" then
    sortStrings (df.map Record.campaign).dedup
  else
    sortStrings ((df.filter (fun r => r.channel == channel)).map Record.campaign).dedup

/-- `start_of_year = date(today.year, 1, 1)` (line 159), as a day ordinal. -/
def start_of_year (today : Date) : Int := daysFromCivil today.year 1 1

/-- `start_of_month = date(today.year, today.month, 1)` (line 160). -/
def start_of_month (today : Date) : Int := daysFromCivil today.year today.month 1

/-- `start_of_week = today - pd.to_timedelta(today.weekday(), unit='d')`
(line 161). -/
def start_of_week (today : Date) : Int := today.ord - today.weekday

/-- `df_ytd = df[df['date'].dt.date >= start_of_year]` (line 163).
Note: filtered from the full record set `df`, not through `base_mask`. -/
def df_ytd (df : List Record) (today : Date) : List Record :=
  df.filter (fun r => decide (start_of_year today ≤ r.date))

/-- `df_mtd = df[df['date'].dt.date >= start_of_month]` (line 164). -/
def df_mtd (df : List Record) (today : Date) : List Record :=
  df.filter (fun r => decide (start_of_month today ≤ r.date))

/-- `df_wtd = df[df['date'].dt.date >= start_of_week]` (line 165). -/
def df_wtd (df : List Record) (today : Date) : List Record :=
  df.filter (fun r => decide (start_of_week today ≤ r.date))

/-- The main-period (or comparison-period) subset: `base_mask` conjoined
with the closed date interval (lines 145 and 154). -/
def df_main_of (df : List Record) (sel : FilterSelection) (period_start period_end : Int) :
    List Record :=
  df.filter (fun r =>
    base_mask sel r && decide (period_start ≤ r.date) && decide (r.date ≤ period_end))

/-- `pandas.groupby("region")`: group keys are the distinct region values
in ascending (sorted) order; each group is the sublist of rows with that
region. -/
def groupby_region (rows : List Record) : List (String × List Record) :=
  (sortStrings (rows.map Record.region).dedup).map
    (fun g => (g, rows.filter (fun r => r.region == g)))

/-- `df.groupby("region")[measures].apply(calculate_summary_kpis)`
(dashboard.py lines 231 and 234). -/
def summary_by_region (rows : List Record) : List (String × SummaryKpis) :=
  (groupby_region rows).map (fun p => (p.1, calculate_summary_kpis p.2))

/-- `regions_to_display` (dashboard.py line 235): the fixed allow-list of
Australian / New Zealand regions. -/
def regions_to_display : List String :=
  ["New South Wales", "Victoria", "Western Australia", "Queensland", "Tasmania",
   "South Australia", "Australian Capital Territory", "Auckland", "Wellington",
   "Hawke\x27s Bay", "Tasman", "Waikato", "Manawatu-Whanganui", "Otago", "Nelson",
   "Bay of Plenty", "Canterbury"]

/-- `summary[summary.index.isin(regions_to_display)]` (lines 236-238). -/
def restrict_regions (summary : List (String × SummaryKpis)) :
    List (String × SummaryKpis) :=
  summary.filter (fun p => regions_to_display.contains p.1)

/-- `get_change_color` (dashboard.py lines 239-245). -/
def get_change_color (value : ℚ) (metric_name : String) : String :=
  let increase_is_good := ["impressions", "clicks", "cost", "ga-booking", "ctr", "cvr"]
  let decrease_is_good := ["cpc", "cpb"]
  if value = 0 then "color: grey;"
  else if increase_is_good.contains metric_name then
    (if 0 < value then "color: #00A36C;" else "color: #D32F2F;")
  else if decrease_is_good.contains metric_name then
    (if value < 0 then "color: #00A36C;" else "color: #D32F2F;")
  else "color: grey;"

/-- The metric columns of the state table (dashboard.py line 247). -/
def metrics : List String :=
  ["impressions", "clicks", "cost", "ga-booking", "ctr", "cpc", "cpb", "cvr"]

/-- `row.get(metric, 0)` on a summary Series (lines 254 and 260): the
named entry, with default 0 for an unknown key. -/
def row_get (s : SummaryKpis) (metric : String) : ℚ :=
  if metric == "impressions" then s.impressions
  else if metric == "clicks" then s.clicks
  else if metric == "cost" then s.cost
  else if metric == "channel leads" then s.channelLeads
  else if metric == "ga-booking" then s.gaBooking
  else if metric == "ctr" then s.ctr
  else if metric == "cpc" then s.cpc
  else if metric == "cpb" then s.cpb
  else if metric == "cvr" then s.cvr
  else 0

/-- `percent_change` (dashboard.py lines 264-265): relative change with
the +100% sentinel when the comparison baseline is not positive. -/
def percent_change (main_val compare_val : ℚ) : ℚ :=
  if 0 < compare_val then (main_val - compare_val) / compare_val
  else if main_val = 0 then 0 else 1

/-- One cell of the state table: the metric name, the main-period value,
and — when a comparison row exists for the region — the comparison value,
the percent change and its color style. -/
structure TableCell where
  metric : String
  main_val : ℚ
  comparison : Option (ℚ × ℚ × String)
deriving DecidableEq

/-- One row of the state table. -/
structure TableRow where
  region : String
  cells : List TableCell
deriving DecidableEq

/-- `generate_html_table` (dashboard.py lines 246-272), abstracted from
HTML strings to its structured content: one row per region of
`main_data` (in order), one cell per metric; a comparison entry is
attached exactly when `compare_data` is given and holds the region. -/
def generate_html_table (main_data : List (String × SummaryKpis))
    (compare_data : Option (List (String × SummaryKpis))) : List TableRow :=
  main_data.map (fun p =>
    ⟨p.1, metrics.map (fun metric =>
      let main_val := row_get p.2 metric
      match compare_data with
      | some cd =>
        match cd.lookup p.1 with
        | some compare_row =>
          let compare_val := row_get compare_row metric
          let pc := percent_change main_val compare_val
          ⟨metric, main_val, some (compare_val, pc, get_change_color pc metric)⟩
        | none => ⟨metric, main_val, none⟩
      | none => ⟨metric, main_val, none⟩)⟩)

/-- The values bound inside `if len(date_range) == 2:` (lines 142-156):
the main subset and its total KPIs, and the comparison subset and its
total KPIs (defaulting to the empty frame / zero dict). -/
structure MainBlock where
  df_main : List Record
  kpis_main_total : TotalKpis
  df_compare : List Record
  kpis_compare_total : TotalKpis
deriving DecidableEq

/-- Lines 142-156: nothing is computed unless the user range has exactly
two endpoints; the comparison subset additionally needs the toggle on and
a two-endpoint comparison range. -/
def main_block (df : List Record) (sel : FilterSelection) (date_range : List Int)
    (compare_enabled : Bool) (compare_date_range : Option (List Int)) :
    Option MainBlock :=
  match date_range with
  | [main_start, main_end] =>
    let dfm := df_main_of df sel main_start main_end
    let kpis_main_total := calculate_kpis dfm
    let compare_part : List Record × TotalKpis :=
      match compare_date_range with
      | some [compare_start, compare_end] =>
        if compare_enabled then
          let dfc := df_main_of df sel compare_start compare_end
          (dfc, calculate_kpis dfc)
        else ([], ⟨0, 0, 0⟩)
      | _ => ([], ⟨0, 0, 0⟩)
    some ⟨dfm, kpis_main_total, compare_part.1, compare_part.2⟩
  | _ => none

/-- The "Custom Period Analysis" section (lines 176-188): the main total
KPIs and, when the comparison toggle is on, the three deltas
(cost, booking, cpb). -/
structure CustomPeriodSection where
  kpis_main_total : TotalKpis
  deltas : Option (ℚ × ℚ × ℚ)
deriving DecidableEq

/-- Section 1 output: rendered only when `df_main` is non-empty. -/
def custom_period_of (mb : Option MainBlock) (compare_enabled : Bool) :
    Option CustomPeriodSection :=
  match mb with
  | some b =>
    if b.df_main ≠ [] then
      some ⟨b.kpis_main_total,
        if compare_enabled then
          some (b.kpis_main_total.cost - b.kpis_compare_total.cost,
                b.kpis_main_total.booking - b.kpis_compare_total.booking,
                b.kpis_main_total.cpb - b.kpis_compare_total.cpb)
        else none⟩
    else none
  | none => none

/-- Section 3 "State Performance" output (lines 230-277): rendered only
when `df_main` is non-empty; the comparison grouping exists only when the
toggle is on and `df_compare` is non-empty, and both groupings are
restricted to the region allow-list before the table is built. -/
def state_performance_of (mb : Option MainBlock) (compare_enabled : Bool) :
    Option (List TableRow) :=
  match mb with
  | some b =>
    if b.df_main ≠ [] then
      let summary_main := restrict_regions (summary_by_region b.df_main)
      let summary_compare : Option (List (String × SummaryKpis)) :=
        if compare_enabled ∧ b.df_compare ≠ [] then
          some (restrict_regions (summary_by_region b.df_compare))
        else none
      match summary_compare with
      | some sc =>
        if compare_enabled then some (generate_html_table summary_main (some sc))
        else some (generate_html_table summary_main none)
      | none => some (generate_html_table summary_main none)
    else none
  | none => none

/-- The engine output consumed by the presentation layer: section 1
(custom period), section 2 (WTD/MTD/YTD at-a-glance totals), section 3
(state table). -/
structure DashboardOutput where
  custom_period : Option CustomPeriodSection
  at_a_glance : TotalKpis × TotalKpis × TotalKpis
  state_performance : Option (List TableRow)
deriving DecidableEq

/-- The whole engine pass of dashboard.py (sections 5 and 6) on one set of
user selections. -/
def run_dashboard (df : List Record) (sel : FilterSelection) (date_range : List Int)
    (compare_enabled : Bool) (compare_date_range : Option (List Int))
    (today : Date) : DashboardOutput :=
  let mb := main_block df sel date_range compare_enabled compare_date_range
  ⟨custom_period_of mb compare_enabled,
   (calculate_kpis (df_wtd df today),
    calculate_kpis (df_mtd df today),
    calculate_kpis (df_ytd df today)),
   state_performance_of mb compare_enabled⟩

/-! ### Helper lemmas -/

theorem sortStrings_sorted (l : List String) : List.Sorted (· ≤ ·) (sortStrings l) :=
  List.sorted_insertionSort _ l

theorem sortStrings_mem {a : String} {l : List String} : a ∈ sortStrings l ↔ a ∈ l :=
  (List.perm_insertionSort _ l).mem_iff

theorem sortStrings_nodup {l : List String} (h : l.Nodup) : (sortStrings l).Nodup :=
  ((List.perm_insertionSort _ l).nodup_iff).mpr h

theorem mem_restrict_regions {s : List (String × SummaryKpis)} {p : String × SummaryKpis}
    (hp : p ∈ restrict_regions s) : p.1 ∈ regions_to_display := by
  simp only [restrict_regions, List.mem_filter] at hp
  simpa using hp.2

theorem generate_html_table_regions (main_data : List (String × SummaryKpis))
    (compare_data : Option (List (String × SummaryKpis))) :
    (generate_html_table main_data compare_data).map TableRow.region =
      main_data.map Prod.fst := by
  simp only [generate_html_table, List.map_map]
  rfl

/-! ### Claims -/

/-- C1: every ratio field of the KPI Calculator (`cpb` in the total form;
`ctr`, `cpc`, `cpb`, `cvr` in the full-summary form) is exactly 0 whenever
the corresponding denominator sum over the record subset is 0, regardless
of the numerator; and when a denominator sum is positive the ratio is the
genuine rational quotient (both forms are total functions into `ℚ`, so no
computation errors out or produces NaN or infinity). -/
theorem kpi_ratio_zero_denominator (rows : List Record) :
    (sumBy Record.gaBooking rows = 0 → (calculate_kpis rows).cpb = 0)
  ∧ (sumBy Record.impressions rows = 0 → (calculate_summary_kpis rows).ctr = 0)
  ∧ (sumBy Record.clicks rows = 0 →
      (calculate_summary_kpis rows).cpc = 0 ∧ (calculate_summary_kpis rows).cvr = 0)
  ∧ (sumBy Record.gaBooking rows = 0 → (calculate_summary_kpis rows).cpb = 0)
  ∧ (0 < sumBy Record.gaBooking rows →
      (calculate_kpis rows).cpb * sumBy Record.gaBooking rows = sumBy Record.cost rows) := by
  refine ⟨fun h => ?_, fun h => ?_, fun h => ?_, fun h => ?_, fun h => ?_⟩
  · simp [calculate_kpis, h]
  · simp [calculate_summary_kpis, h]
  · simp [calculate_summary_kpis, h]
  · simp [calculate_summary_kpis, h]
  · simp only [calculate_kpis, if_pos h]
    exact div_mul_cancel₀ _ (ne_of_gt h)

def c1_record : Record :=
  ⟨0, "Google", "Camp-1", "Acct", "Always On", "Victoria", 1000, 50, 100, 5, 10⟩

theorem kpi_ratio_zero_denominator_witness :
    (calculate_kpis []).cpb = 0
  ∧ (calculate_summary_kpis []).ctr = 0
  ∧ (calculate_summary_kpis []).cpc = 0 ∧ (calculate_summary_kpis []).cvr = 0
  ∧ (calculate_summary_kpis []).cpb = 0
  ∧ (calculate_kpis [c1_record]).cpb * sumBy Record.gaBooking [c1_record] =
      sumBy Record.cost [c1_record] :=
  ⟨(kpi_ratio_zero_denominator []).1 rfl,
   (kpi_ratio_zero_denominator []).2.1 rfl,
   ((kpi_ratio_zero_denominator []).2.2.1 rfl).1,
   ((kpi_ratio_zero_denominator []).2.2.1 rfl).2,
   (kpi_ratio_zero_denominator []).2.2.2.1 rfl,
   (kpi_ratio_zero_denominator [c1_record]).2.2.2.2 (by norm_num [sumBy, c1_record])⟩

/-- C2: in every comparison-annotated cell of the state table, the stored
percent change equals `(main - compare) / compare` when the comparison
value is strictly positive, is exactly 0 when the comparison value is not
positive and the main value is 0, and is exactly 1 (the +100% sentinel)
when the comparison value is not positive and the main value is not 0. -/
theorem percent_change_in_table (main_data compare_data : List (String × SummaryKpis))
    (row : TableRow) (cell : TableCell) (compare_val pc : ℚ) (style : String)
    (hrow : row ∈ generate_html_table main_data (some compare_data))
    (hcell : cell ∈ row.cells)
    (hcmp : cell.comparison = some (compare_val, pc, style)) :
    (0 < compare_val → pc = (cell.main_val - compare_val) / compare_val)
  ∧ (¬ 0 < compare_val → cell.main_val = 0 → pc = 0)
  ∧ (¬ 0 < compare_val → cell.main_val ≠ 0 → pc = 1) := by
  simp only [generate_html_table, List.mem_map] at hrow
  obtain ⟨p, hp, rfl⟩ := hrow
  simp only [List.mem_map] at hcell
  obtain ⟨metric, hm, rfl⟩ := hcell
  rcases hlk : List.lookup p.1 compare_data with _ | compare_row
  · simp [hlk] at hcmp
  · simp only [hlk, Option.some.injEq, Prod.mk.injEq] at hcmp
    obtain ⟨hcv, hpc, -⟩ := hcmp
    subst hcv hpc
    refine ⟨fun hpos => ?_, fun hneg h0 => ?_, fun hneg h0 => ?_⟩ <;>
      simp_all [percent_change]

def c2_main : List (String × SummaryKpis) :=
  [("Victoria", ⟨1000, 50, 100, 5, 10, 1/20, 2, 10, 1/10⟩)]

def c2_compare : List (String × SummaryKpis) :=
  [("Victoria", ⟨0, 0, 0, 0, 0, 0, 0, 0, 0⟩)]

def c2_row : TableRow :=
  ((generate_html_table c2_main (some c2_compare)).head?).getD ⟨"", []⟩

def c2_cell : TableCell := (c2_row.cells.head?).getD ⟨"", 0, none⟩

theorem percent_change_in_table_witness :
    c2_cell.main_val = 1000
  ∧ c2_cell.comparison = some (0, 1, "color: #00A36C;")
  ∧ (1 : ℚ) = 1 :=
  ⟨rfl, rfl,
   (percent_change_in_table c2_main c2_compare c2_row c2_cell 0 1 "color: #00A36C;"
      (List.mem_cons_self _ _) (List.mem_cons_self _ _) rfl).2.2
     (by norm_num) (fun h => absurd (show (1000 : ℚ) = 0 from h) (by norm_num))⟩

def c3_today : Date := ⟨2026, 10, 12⟩

def c3_record : Record :=
  ⟨Date.ord ⟨2026, 10, 12⟩, "Facebook", "FB-Camp", "Acct", "Always On", "Victoria",
   0, 0, 100, 0, 0⟩

def c3_selection : FilterSelection := ⟨"Google", [], "All", "All"⟩

/-- C3 counterexample: with channel filter "Google", a "Facebook" record
dated today is rejected by the combined inclusion predicate, yet it is a
member of all three of the WTD/MTD/YTD subsets and its cost enters the
WTD aggregate — so those subsets are not obtained by applying the Filter
Engine predicate, unlike the main subset (whose aggregate excludes it). -/
theorem wtd_ignores_filters_cex :
    base_mask c3_selection c3_record = false
  ∧ c3_record ∈ df_wtd [c3_record] c3_today
  ∧ c3_record ∈ df_mtd [c3_record] c3_today
  ∧ c3_record ∈ df_ytd [c3_record] c3_today
  ∧ (calculate_kpis (df_wtd [c3_record] c3_today)).cost = 100
  ∧ (calculate_kpis (df_main_of [c3_record] c3_selection 0 (Date.ord c3_today))).cost = 0 := by
  refine ⟨rfl, ?_, ?_, ?_,
    by norm_num [calculate_kpis, sumBy, df_wtd, c3_record, c3_today, start_of_week,
      Date.ord, Date.weekday, daysFromCivil],
    by simp +decide [calculate_kpis, sumBy, df_main_of, base_mask, c3_record, c3_selection,
      c3_today, Date.ord, daysFromCivil]⟩ <;>
  exact List.mem_cons_self _ _

/-- C3 amended: the main and comparison subsets are obtained by applying
the Filter Engine's combined inclusion predicate (plus the period bounds)
to the record set, but the WTD/MTD/YTD subsets are filtered from the full
record set by the date lower bound alone, so their aggregates may include
records that do not satisfy the selected filters. -/
theorem main_filtered_wtd_unfiltered (df : List Record) (sel : FilterSelection)
    (period_start period_end : Int) (today : Date) (r : Record) :
    (r ∈ df_main_of df sel period_start period_end ↔
      r ∈ df ∧ base_mask sel r = true ∧ period_start ≤ r.date ∧ r.date ≤ period_end)
  ∧ (r ∈ df_wtd df today ↔ r ∈ df ∧ start_of_week today ≤ r.date)
  ∧ (r ∈ df_mtd df today ↔ r ∈ df ∧ start_of_month today ≤ r.date)
  ∧ (r ∈ df_ytd df today ↔ r ∈ df ∧ start_of_year today ≤ r.date) := by
  refine ⟨?_, ?_, ?_, ?_⟩ <;>
    simp [df_main_of, df_wtd, df_mtd, df_ytd, List.mem_filter, and_assoc]

theorem generate_restrict_mem {md : List (String × SummaryKpis)}
    {cd : Option (List (String × SummaryKpis))} {row : TableRow}
    (hrow : row ∈ generate_html_table (restrict_regions md) cd) :
    row.region ∈ regions_to_display := by
  have h1 := List.mem_map_of_mem TableRow.region hrow
  rw [generate_html_table_regions] at h1
  obtain ⟨q, hq, hq2⟩ := List.mem_map.mp h1
  exact hq2 ▸ mem_restrict_regions hq

theorem state_performance_of_regions (mb : Option MainBlock) (compare_enabled : Bool)
    (table : List TableRow) (row : TableRow)
    (h : state_performance_of mb compare_enabled = some table) (hrow : row ∈ table) :
    row.region ∈ regions_to_display := by
  cases mb with
  | none => simp [state_performance_of] at h
  | some b =>
    simp only [state_performance_of] at h
    split at h
    case isFalse => exact absurd h (by simp)
    case isTrue =>
      split at h
      case h_1 sc hsc =>
        split at h
        all_goals
          obtain rfl := (Option.some.inj h).symm
          exact generate_restrict_mem hrow
      case h_2 hsc =>
        obtain rfl := (Option.some.inj h).symm
        exact generate_restrict_mem hrow

/-- C4: every row of the rendered State Performance table belongs to the
fixed region allow-list, and more generally every entry of a
region grouping passed through `restrict_regions` (as both the main and
the comparison groupings are, lines 236-238) has an allow-listed region —
regions outside the allow-list are dropped. -/
theorem region_table_allowlist (df : List Record) (sel : FilterSelection)
    (date_range : List Int) (compare_enabled : Bool)
    (compare_date_range : Option (List Int)) (today : Date)
    (table : List TableRow) (row : TableRow) (rows : List Record)
    (p : String × SummaryKpis) :
    ((run_dashboard df sel date_range compare_enabled compare_date_range today).state_performance
        = some table → row ∈ table → row.region ∈ regions_to_display)
  ∧ (p ∈ restrict_regions (summary_by_region rows) → p.1 ∈ regions_to_display) := by
  constructor
  · intro htab hrow
    have htab' : state_performance_of
        (main_block df sel date_range compare_enabled compare_date_range)
        compare_enabled = some table := htab
    exact state_performance_of_regions _ _ _ _ htab' hrow
  · intro hp
    exact mem_restrict_regions hp

def c4_record : Record :=
  ⟨0, "Google", "Camp", "Acct", "Always On", "Victoria", 0, 0, 0, 0, 0⟩

def c4_selection : FilterSelection := ⟨"All", [], "All", "All"⟩

def c4_table : List TableRow :=
  generate_html_table
    (restrict_regions (summary_by_region (df_main_of [c4_record] c4_selection 0 0))) none

def c4_row : TableRow := (c4_table.head?).getD ⟨"", []⟩

theorem region_table_allowlist_witness :
    c4_row.region ∈ regions_to_display
  ∧ ("Victoria", calculate_summary_kpis [c4_record]).1 ∈ regions_to_display :=
  ⟨(region_table_allowlist [c4_record] c4_selection [0, 0] false none ⟨2026, 10, 12⟩
      c4_table c4_row [] ("", calculate_summary_kpis [])).1 rfl (List.mem_cons_self _ _),
   (region_table_allowlist [c4_record] c4_selection [0, 0] false none ⟨2026, 10, 12⟩
      c4_table c4_row [c4_record] ("Victoria", calculate_summary_kpis [c4_record])).2
     (List.mem_cons_self _ _)⟩

/-- C9: the rows of the state table are generated by iterating over the
main-period grouping only: the table's region column equals the main
grouping's region column, so a region absent from the main grouping has
no row at all — even when it is present in the comparison grouping. -/
theorem comparison_only_region_omitted (main_data : List (String × SummaryKpis))
    (compare_data : Option (List (String × SummaryKpis))) (reg : String) :
    ((generate_html_table main_data compare_data).map TableRow.region =
      main_data.map Prod.fst)
  ∧ (reg ∉ main_data.map Prod.fst →
      ∀ row ∈ generate_html_table main_data compare_data, row.region ≠ reg) := by
  refine ⟨generate_html_table_regions _ _, fun hreg row hrow hcontra => ?_⟩
  apply hreg
  have h1 := List.mem_map_of_mem TableRow.region hrow
  rw [generate_html_table_regions] at h1
  exact hcontra ▸ h1

def c9_main : List (String × SummaryKpis) := [("Victoria", ⟨0, 0, 0, 0, 0, 0, 0, 0, 0⟩)]

def c9_compare : List (String × SummaryKpis) := [("Auckland", ⟨0, 0, 0, 0, 0, 0, 0, 0, 0⟩)]

def c9_row : TableRow :=
  ((generate_html_table c9_main (some c9_compare)).head?).getD ⟨"", []⟩

theorem comparison_only_region_omitted_witness : c9_row.region ≠ "Auckland" :=
  (comparison_only_region_omitted c9_main (some c9_compare) "Auckland").2
    (by simp [c9_main]) c9_row (List.mem_cons_self _ _)

/-- C7: the campaign option list is sorted and duplicate-free, a string is
offered exactly when some record matching the selected channel (or any
record, when the selection is "All") carries it as its campaign, and the
"All" selection yields exactly the full campaign universe of the record
set. -/
theorem campaign_options_spec (df : List Record) (channel : String) (c : String) :
    List.Sorted (· ≤ ·) (campaign_options df channel)
  ∧ (campaign_options df channel).Nodup
  ∧ (c ∈ campaign_options df channel ↔
      ∃ r, r ∈ df ∧ (channel = "All" ∨ r.channel = channel) ∧ r.campaign = c)
  ∧ (channel = "All" → (c ∈ campaign_options df channel ↔ c ∈ df.map Record.campaign)) := by
  by_cases h : channel = "All"
  · subst h
    have e : campaign_options df "All" = sortStrings (df.map Record.campaign).dedup := by
      simp [campaign_options]
    refine ⟨e ▸ sortStrings_sorted _, e ▸ sortStrings_nodup (List.nodup_dedup _), ?_, ?_⟩
    · rw [e, sortStrings_mem, List.mem_dedup, List.mem_map]
      simp
    · intro _
      rw [e, sortStrings_mem, List.mem_dedup]
  · have e : campaign_options df channel =
        sortStrings ((df.filter (fun r => r.channel == channel)).map Record.campaign).dedup := by
      simp [campaign_options, h]
    refine ⟨e ▸ sortStrings_sorted _, e ▸ sortStrings_nodup (List.nodup_dedup _), ?_,
      fun hAll => absurd hAll h⟩
    rw [e, sortStrings_mem, List.mem_dedup, List.mem_map]
    constructor
    · rintro ⟨r, hr, rfl⟩
      rw [List.mem_filter] at hr
      exact ⟨r, hr.1, Or.inr (by simpa using hr.2), rfl⟩
    · rintro ⟨r, hr, hch, rfl⟩
      refine ⟨r, List.mem_filter.mpr ⟨hr, ?_⟩, rfl⟩
      rcases hch with hch | hch
      · exact absurd hch h
      · simpa using hch

def c7_record : Record :=
  ⟨0, "Google", "Camp-A", "Acct", "Always On", "Victoria", 0, 0, 0, 0, 0⟩

theorem campaign_options_spec_witness :
    "Camp-A" ∈ campaign_options [c7_record] "All"
  ∧ "Camp-A" ∈ campaign_options [c7_record] "Google" :=
  ⟨((campaign_options_spec [c7_record] "All" "Camp-A").2.2.2 rfl).mpr
     (List.mem_cons_self _ _),
   ((campaign_options_spec [c7_record] "Google" "Camp-A").2.2.1).mpr
     ⟨c7_record, List.mem_cons_self _ _, Or.inr rfl, rfl⟩⟩

theorem daysFromCivil_day_mono (y m : Int) {d : Int} (hd : 1 ≤ d) :
    daysFromCivil y m 1 ≤ daysFromCivil y m d := by
  simp only [daysFromCivil]
  split_ifs <;> omega

theorem daysFromCivil_jan1_le (y : Int) {m d : Int} (hm : 1 ≤ m) (hd : 1 ≤ d) :
    daysFromCivil y 1 1 ≤ daysFromCivil y m d := by
  simp only [daysFromCivil]
  split_ifs <;> omega

theorem weekday_nonneg (t : Date) : 0 ≤ t.weekday :=
  Int.emod_nonneg _ (by norm_num)

theorem start_of_week_le_ord (t : Date) : start_of_week t ≤ t.ord := by
  have := weekday_nonneg t
  simp only [start_of_week]
  omega

theorem start_of_month_le_ord (t : Date) (hd : 1 ≤ t.day) : start_of_month t ≤ t.ord :=
  daysFromCivil_day_mono t.year t.month hd

theorem start_of_year_le_ord (t : Date) (hm : 1 ≤ t.month) (hd : 1 ≤ t.day) :
    start_of_year t ≤ t.ord :=
  daysFromCivil_jan1_le t.year hm hd

/-- C5: the Period Resolver computes `start_of_week` as today minus
today's Monday-based weekday index, `start_of_month` as the first day of
today's month and `start_of_year` as January 1 of today's year; each of
the WTD / MTD / YTD subsets is exactly the set of records whose date is
`≥` the corresponding start — a lower bound with no upper bound — so in
particular every record dated on or after today (including future-dated
records) belongs to all three subsets. -/
theorem period_resolver_spec (today : Date) (df : List Record) (r : Record)
    (hm1 : 1 ≤ today.month) (_hm2 : today.month ≤ 12) (hd : 1 ≤ today.day) :
    start_of_week today = today.ord - today.weekday
  ∧ start_of_month today = daysFromCivil today.year today.month 1
  ∧ start_of_year today = daysFromCivil today.year 1 1
  ∧ (r ∈ df_wtd df today ↔ r ∈ df ∧ start_of_week today ≤ r.date)
  ∧ (r ∈ df_mtd df today ↔ r ∈ df ∧ start_of_month today ≤ r.date)
  ∧ (r ∈ df_ytd df today ↔ r ∈ df ∧ start_of_year today ≤ r.date)
  ∧ (r ∈ df → today.ord ≤ r.date →
      r ∈ df_wtd df today ∧ r ∈ df_mtd df today ∧ r ∈ df_ytd df today) := by
  refine ⟨rfl, rfl, rfl, ?_, ?_, ?_, ?_⟩
  · simp [df_wtd, List.mem_filter]
  · simp [df_mtd, List.mem_filter]
  · simp [df_ytd, List.mem_filter]
  · intro hmem hfut
    exact
      ⟨List.mem_filter.mpr
        ⟨hmem, decide_eq_true (le_trans (start_of_week_le_ord today) hfut)⟩,
       List.mem_filter.mpr
        ⟨hmem, decide_eq_true (le_trans (start_of_month_le_ord today hd) hfut)⟩,
       List.mem_filter.mpr
        ⟨hmem, decide_eq_true (le_trans (start_of_year_le_ord today hm1 hd) hfut)⟩⟩

def c5_today : Date := ⟨2026, 10, 12⟩

def c5_record : Record :=
  ⟨daysFromCivil 2027 1 5, "Google", "Camp", "Acct", "Always On", "Victoria",
   0, 0, 0, 0, 0⟩

theorem period_resolver_spec_witness :
    c5_record ∈ df_wtd [c5_record] c5_today
  ∧ c5_record ∈ df_mtd [c5_record] c5_today
  ∧ c5_record ∈ df_ytd [c5_record] c5_today :=
  (period_resolver_spec c5_today [c5_record] c5_record (by norm_num [c5_today])
      (by norm_num [c5_today]) (by norm_num [c5_today])).2.2.2.2.2.2
    (List.mem_cons_self _ _)
    (by norm_num [c5_today, c5_record, Date.ord, daysFromCivil])

/-- C8: when the user-supplied main range does not have exactly two
endpoints, the engine still produces a total result (no error): the main
block — and with it every main or comparison KPI aggregate — is not
computed, the custom-period section and the state table are both
suppressed, and the WTD/MTD/YTD at-a-glance output is produced exactly as
usual from the full record set. -/
theorem incomplete_range_suppresses (df : List Record) (sel : FilterSelection)
    (date_range : List Int) (compare_enabled : Bool)
    (compare_date_range : Option (List Int)) (today : Date)
    (h : date_range.length ≠ 2) :
    main_block df sel date_range compare_enabled compare_date_range = none
  ∧ (run_dashboard df sel date_range compare_enabled compare_date_range
      today).custom_period = none
  ∧ (run_dashboard df sel date_range compare_enabled compare_date_range
      today).state_performance = none
  ∧ (run_dashboard df sel date_range compare_enabled compare_date_range
      today).at_a_glance =
      (calculate_kpis (df_wtd df today), calculate_kpis (df_mtd df today),
       calculate_kpis (df_ytd df today)) := by
  have hmb : main_block df sel date_range compare_enabled compare_date_range = none := by
    rcases date_range with _ | ⟨a, _ | ⟨b, _ | ⟨c, t⟩⟩⟩
    · rfl
    · rfl
    · exact absurd rfl h
    · rfl
  refine ⟨hmb, ?_, ?_, rfl⟩
  · show custom_period_of
      (main_block df sel date_range compare_enabled compare_date_range)
      compare_enabled = none
    rw [hmb]
    rfl
  · show state_performance_of
      (main_block df sel date_range compare_enabled compare_date_range)
      compare_enabled = none
    rw [hmb]
    rfl

def c8_record : Record :=
  ⟨0, "Google", "Camp", "Acct", "Always On", "Victoria", 0, 0, 100, 0, 0⟩

theorem incomplete_range_suppresses_witness :
    (run_dashboard [c8_record] ⟨"All", [], "All", "All"⟩ [0] true none
      ⟨2026, 10, 12⟩).custom_period = none
  ∧ (run_dashboard [c8_record] ⟨"All", [], "All", "All"⟩ [0] true none
      ⟨2026, 10, 12⟩).state_performance = none :=
  ⟨(incomplete_range_suppresses [c8_record] ⟨"All", [], "All", "All"⟩ [0] true none
      ⟨2026, 10, 12⟩ (by norm_num)).2.1,
   (incomplete_range_suppresses [c8_record] ⟨"All", [], "All", "All"⟩ [0] true none
      ⟨2026, 10, 12⟩ (by norm_num)).2.2.1⟩

/-! ### Layer 1: the raw combined frame of `get_combined_data` -/

/-- A raw cell value: a finite number, the float NaN, a string, a null
(blank) cell, or a parsed timestamp (day ordinal). -/
inductive Value where
  | num (q : ℚ)
  | nan
  | str (s : String)
  | null
  | date (d : Int)
deriving DecidableEq

/-- A raw tabular frame: the column names actually present, and the rows
(each row is a cell for every column name; cells under names not listed
in `cols` are phantom and never read). -/
structure RawDF where
  cols : List String
  rows : List (String → Value)

/-- `numeric_cols` (dashboard.py line 56): the declared numeric columns. -/
def numeric_cols : List String :=
  ["impressions", "clicks", "cost", "channel leads", "channel bookings",
   "ga-booking", "year"]

/-- `pd.to_numeric(x, errors='coerce')` on one cell, parameterized by the
string-to-number parser: numbers pass through, NaN stays NaN, a string
parses or becomes NaN, nulls and non-numeric values become NaN. -/
def to_numeric (parse : String → Option ℚ) : Value → Value
  | .num q => .num q
  | .nan => .nan
  | .str s =>
    match parse s with
    | some q => .num q
    | none => .nan
  | .null => .nan
  | .date _ => .nan

/-- `.fillna(0)` on one cell. -/
def fillna0 : Value → Value
  | .nan => .num 0
  | v => v

/-- The loop of dashboard.py lines 57-59 on one row: a cell is coerced
and NaN-filled exactly when its column is a declared numeric column that
is present in the frame. -/
def coerce_row (cols : List String) (parse : String → Option ℚ)
    (r : String → Value) : String → Value :=
  fun c =>
    if c ∈ numeric_cols ∧ c ∈ cols then fillna0 (to_numeric parse (r c)) else r c

/-- Lines 56-59: numeric coercion of every present declared numeric
column; no column is added or removed. -/
def coerce_numerics (parse : String → Option ℚ) (df : RawDF) : RawDF :=
  ⟨df.cols, df.rows.map (coerce_row df.cols parse)⟩

/-- Lines 62-63: `pd.to_datetime(errors='coerce')` on the date column
followed by `dropna(subset=['date'])`, parameterized by the abstract
timestamp parser `pdate`: rows whose date cell fails to parse are
dropped, the others get their date cell replaced by the parsed value. -/
def parse_dates (pdate : Value → Option Int) (df : RawDF) : RawDF :=
  ⟨df.cols,
   df.rows.filterMap (fun r =>
     (pdate (r "date")).map (fun d => fun c => if c == "date" then Value.date d else r c))⟩

/-- The cleaning tail of `get_combined_data` (lines 50-68) on the
concatenated frame: fatal `st.stop` outcomes (empty frame, no date
column) are `none`. -/
def clean_combined_data (parse : String → Option ℚ) (pdate : Value → Option Int)
    (df_combined : RawDF) : Option RawDF :=
  if df_combined.rows.isEmpty || df_combined.cols.isEmpty then none
  else
    let df1 := coerce_numerics parse df_combined
    if "date" ∈ df1.cols then some (parse_dates pdate df1) else none

/-- Pandas addition of two cells: finite numbers add, anything else (NaN
in particular) poisons the sum to NaN. -/
def vadd : Value → Value → Value
  | .num a, .num b => .num (a + b)
  | _, _ => .nan

/-- `series.sum()` over the cells of a column. -/
def vsum (l : List Value) : Value := l.foldr vadd (.num 0)

/-- `dataframe[c]`: the column's cells, or `none` (KeyError) when the
column is absent. -/
def df_get_col (df : RawDF) (c : String) : Option (List Value) :=
  if c ∈ df.cols then some (df.rows.map (fun r => r c)) else none

/-- Python `x > 0` on a cell (`NaN > 0` is false). -/
def vgt0 : Value → Bool
  | .num q => decide (0 < q)
  | _ => false

/-- Python `x / y` on cells. -/
def vdiv : Value → Value → Value
  | .num a, .num b => .num (a / b)
  | _, _ => .nan

/-- `calculate_kpis` (lines 116-120) as it behaves on a raw frame: the
two column lookups fail (`none`, modelling the KeyError) unless both the
`cost` and `ga-booking` columns exist. -/
def calculate_kpis_df (dataframe : RawDF) : Option (Value × Value × Value) :=
  match df_get_col dataframe "cost", df_get_col dataframe "ga-booking" with
  | some costs, some gabs =>
    let cost := vsum costs
    let bookings := vsum gabs
    some (cost, bookings, if vgt0 bookings then vdiv cost bookings else .num 0)
  | _, _ => none

/-- C10: numeric coercion touches only declared numeric columns that are
present — it neither creates a missing column nor rewrites a cell of an
absent column — and the total KPI computation on the coerced frame is
well-defined exactly when both `cost` and `ga-booking` columns exist:
if either is missing the column lookup fails (`none`) instead of
treating the missing measure as zero. -/
theorem missing_measure_columns (parse : String → Option ℚ) (df : RawDF)
    (c : String) (r : String → Value) :
    ((coerce_numerics parse df).cols = df.cols)
  ∧ (c ∉ df.cols → coerce_row df.cols parse r c = r c)
  ∧ ("cost" ∉ df.cols → calculate_kpis_df (coerce_numerics parse df) = none)
  ∧ ("ga-booking" ∉ df.cols → calculate_kpis_df (coerce_numerics parse df) = none)
  ∧ ("cost" ∈ df.cols → "ga-booking" ∈ df.cols →
      (calculate_kpis_df (coerce_numerics parse df)).isSome = true) := by
  refine ⟨rfl, fun hc => ?_, fun hc => ?_, fun hc => ?_, fun hc hg => ?_⟩
  · simp [coerce_row, hc]
  · have h : df_get_col (coerce_numerics parse df) "cost" = none := by
      simp [df_get_col, coerce_numerics, hc]
    unfold calculate_kpis_df
    rw [h]
  · have h : df_get_col (coerce_numerics parse df) "ga-booking" = none := by
      simp [df_get_col, coerce_numerics, hc]
    unfold calculate_kpis_df
    rw [h]
    rcases df_get_col (coerce_numerics parse df) "cost" with _ | v <;> rfl
  · simp [calculate_kpis_df, df_get_col, coerce_numerics, hc, hg]

def c10_parse : String → Option ℚ := fun _ => none

def c10_missing : RawDF := ⟨["date", "ga-booking"], [fun _ => Value.num 1]⟩

def c10_present : RawDF := ⟨["date", "cost", "ga-booking"], [fun _ => Value.num 1]⟩

theorem missing_measure_columns_witness :
    calculate_kpis_df (coerce_numerics c10_parse c10_missing) = none
  ∧ (calculate_kpis_df (coerce_numerics c10_parse c10_present)).isSome = true
  ∧ coerce_row c10_missing.cols c10_parse (fun _ => Value.str "x") "cost" = Value.str "x" :=
  ⟨(missing_measure_columns c10_parse c10_missing "cost" (fun _ => Value.num 1)).2.2.1
     (by decide),
   (missing_measure_columns c10_parse c10_present "cost" (fun _ => Value.num 1)).2.2.2.2
     (by decide) (by decide),
   (missing_measure_columns c10_parse c10_missing "cost" (fun _ => Value.str "x")).2.1
     (by decide)⟩

theorem fillna0_to_numeric (parse : String → Option ℚ) (v : Value) :
    ∃ q : ℚ, fillna0 (to_numeric parse v) = Value.num q
      ∧ (to_numeric parse v = Value.nan → q = 0) := by
  cases v with
  | num q => exact ⟨q, rfl, fun h => by cases h⟩
  | nan => exact ⟨0, rfl, fun _ => rfl⟩
  | str s =>
    rcases hp : parse s with _ | q
    · exact ⟨0, by simp [to_numeric, hp, fillna0], fun _ => rfl⟩
    · exact ⟨q, by simp [to_numeric, hp, fillna0], fun h => by simp [to_numeric, hp] at h⟩
  | null => exact ⟨0, rfl, fun _ => rfl⟩
  | date d => exact ⟨0, rfl, fun _ => rfl⟩

theorem mem_numeric_cols_ne_date {col : String} (h : col ∈ numeric_cols) :
    col ≠ "date" := fun heq => by
  subst heq
  exact absurd h (by decide)

/-- C6: every declared numeric field of every record of the cleaned
record set is a finite number (`Value.num`) — never NaN and never null —
and it is exactly the NaN-filled numeric coercion of the original cell,
so a cell whose value fails to parse comes out as exactly 0. -/
theorem normalized_numeric_fields_finite (parse : String → Option ℚ)
    (pdate : Value → Option Int) (df out : RawDF) (rr : String → Value) (col : String)
    (hclean : clean_combined_data parse pdate df = some out)
    (hr : rr ∈ out.rows) (hcol : col ∈ numeric_cols) (hpres : col ∈ df.cols) :
    ∃ r0, r0 ∈ df.rows ∧ rr col = fillna0 (to_numeric parse (r0 col))
      ∧ ∃ q : ℚ, rr col = Value.num q ∧ (to_numeric parse (r0 col) = Value.nan → q = 0) := by
  unfold clean_combined_data at hclean
  by_cases h1 : (df.rows.isEmpty || df.cols.isEmpty) = true
  · rw [if_pos h1] at hclean
    exact absurd hclean (by simp)
  · rw [if_neg h1] at hclean
    dsimp only at hclean
    by_cases h2 : "date" ∈ (coerce_numerics parse df).cols
    swap
    · rw [if_neg h2] at hclean
      exact absurd hclean (by simp)
    rw [if_pos h2] at hclean
    obtain rfl := Option.some.inj hclean
    simp only [parse_dates, coerce_numerics, List.mem_filterMap, List.mem_map] at hr
    obtain ⟨a, ⟨r0, hr0, rfl⟩, hfa⟩ := hr
    rw [Option.map_eq_some'] at hfa
    obtain ⟨d, -, rfl⟩ := hfa
    have hcc : (fun c => if c == "date" then Value.date d
          else coerce_row df.cols parse r0 c) col =
        fillna0 (to_numeric parse (r0 col)) := by
      have hne : ¬ ((col == "date") = true) := by
        simpa using mem_numeric_cols_ne_date hcol
      simp only [hne, if_false, Bool.false_eq_true, reduceIte, coerce_row]
      rw [if_pos ⟨hcol, hpres⟩]
    obtain ⟨q, hq, hz⟩ := fillna0_to_numeric parse (r0 col)
    exact ⟨r0, hr0, hcc, q, hcc.trans hq, hz⟩

def c6_parse : String → Option ℚ := fun _ => none

def c6_pdate : Value → Option Int := fun _ => some 0

def c6_df : RawDF :=
  ⟨["date", "cost"],
   [fun c => if c == "cost" then Value.str "oops" else Value.str "2024-01-01"]⟩

def c6_out : RawDF := (clean_combined_data c6_parse c6_pdate c6_df).getD ⟨[], []⟩

def c6_row : String → Value := (c6_out.rows.head?).getD (fun _ => Value.null)

theorem normalized_numeric_fields_finite_witness : c6_row "cost" = Value.num 0 := by
  obtain ⟨r0, hr0, heq, q, hq, hz⟩ :=
    normalized_numeric_fields_finite c6_parse c6_pdate c6_df c6_out c6_row "cost"
      rfl (List.mem_cons_self _ _) (by decide) (by decide)
  have hr0' : r0 = fun c =>
      if c == "cost" then Value.str "oops" else Value.str "2024-01-01" := by
    simpa [c6_df] using hr0
  subst hr0'
  rw [hq, hz rfl]
